import Mathlib

/-!
Shallow embedding of the crypto aggregation backend (src/main.py).

JSON values are modelled by the inductive `Json`; Python `None` and JSON
`null` are both `Json.null` (the code conflates them through truthiness
and `dict.get`). JSON numbers are carried opaquely as integers: no claim
computes with a numeric value. Python `dict.get(k)` / `dict.get(k, d)`
become `Json.get` / `Json.getD`; following the data model of the
specification, provider payloads are treated as JSON-like mappings, so
field access on a non-object yields `null` instead of a dynamic-type
error.

Python strings are modelled as `List Char` (a Python string is a sequence
of code points) so that every operation is structurally recursive and
kernel-evaluable; `String` literals are converted through `String.data`.
The ASCII-only inputs of the claims make `Char.toLower` and
`Char.isWhitespace` faithful stand-ins for `str.lower` / `str.strip`.

Each outbound HTTP request is modelled by its observable outcome
`HttpResult`: either a transport-level error (a `requests.RequestException`
raised before a response exists) or a response with a status code and a
body, where `body = none` means the body is not parseable JSON (then
`.json()` raises a decode error, which `requests` wraps as a
`RequestException`). The network itself is passed in as oracle functions
from request data to `HttpResult`.
-/

inductive Json where
  | null : Json
  | bool (b : Bool) : Json
  | num (n : Int) : Json
  | str (s : String) : Json
  | arr (xs : List Json) : Json
  | obj (kvs : List (String × Json)) : Json

namespace Json

/-- Python `d.get(k, default)`: the value under the first matching key,
else the default. -/
def getD (j : Json) (k : String) (d : Json) : Json :=
  match j with
  | .obj kvs =>
    match kvs.lookup k with
    | some v => v
    | none => d
  | _ => d

/-- Python `d.get(k)`: the value under the key, else `None`. -/
def get (j : Json) (k : String) : Json :=
  j.getD k .null

/-- Python truthiness of a JSON value: `None`, `False`, `0`, `""`, `[]`
and the empty mapping are falsy. -/
def truthy : Json → Bool
  | .null => false
  | .bool b => b
  | .num n => n != 0
  | .str s => s != ""
  | .arr xs => !xs.isEmpty
  | .obj kvs => !kvs.isEmpty

/-- Python `a or b`. -/
def orElse (a b : Json) : Json :=
  if a.truthy then a else b

/-- Whether the value is a JSON string. -/
def isStrVal : Json → Bool
  | .str _ => true
  | _ => false

/-- Python `v == lit` for a string literal `lit`: true exactly for the
equal string (Python equality between a non-string value and a string is
`False`). -/
def eqStr (j : Json) (lit : String) : Bool :=
  match j with
  | .str t => t = lit
  | _ => false

/-- Python slicing `v[:n]` as used on provider list fields: a list is
truncated, any other value is returned unchanged (the code only slices
list-valued provider fields). -/
def takeItems (j : Json) (n : Nat) : Json :=
  match j with
  | .arr xs => .arr (xs.take n)
  | v => v

/-- The elements of a list value, for Python iteration over a provider
list field. -/
def items : Json → List Json
  | .arr xs => xs
  | _ => []

end Json

/-! ## Python string operations over `List Char` -/

/-- Whether the first list is a prefix of the second. -/
def isPre : List Char → List Char → Bool
  | [], _ => true
  | _ :: _, [] => false
  | a :: as, b :: bs => a == b && isPre as bs

/-- One step of Python `s.split(sep)` for a non-empty `sep`: scans left to
right, emitting the chunk collected in `acc` at each non-overlapping
occurrence of `sep`; `skip` counts separator characters still to be
consumed after a match. -/
def splitCharsAux (sep : List Char) : List Char → List Char → Nat → List (List Char)
  | [], acc, _ => [acc.reverse]
  | _ :: rest, acc, skip+1 => splitCharsAux sep rest acc skip
  | c :: rest, acc, 0 =>
    if isPre sep (c :: rest) then
      acc.reverse :: splitCharsAux sep rest [] (sep.length - 1)
    else
      splitCharsAux sep rest (c :: acc) 0

/-- Python `s.split(sep)` for a non-empty separator. -/
def pySplit (s sep : List Char) : List (List Char) :=
  splitCharsAux sep s [] 0

/-- Python `s.strip()`: drop leading and trailing whitespace. -/
def pyStrip (s : List Char) : List Char :=
  ((s.dropWhile Char.isWhitespace).reverse.dropWhile Char.isWhitespace).reverse

/-- Python `s.lower()` (ASCII letters). -/
def pyLower (s : List Char) : List Char :=
  s.map Char.toLower

/-! ## Upstream client (src/main.py lines 60-115) -/

/-- The observable outcome of one `requests.get` call. -/
inductive HttpResult where
  | transportErr (msg : String) : HttpResult
  | response (status : Nat) (body : Option Json) : HttpResult

/-- A raised `fastapi.HTTPException`, carrying the HTTP status and the
detail message. -/
structure HTTPException where
  status_code : Nat
  detail : String

/-- The text of the `requests.HTTPError` raised by `raise_for_status` for
a 4xx or 5xx response; only its presence inside the 502 detail matters to
the claims, not its exact wording. -/
def statusErrorText (status : Nat) : String :=
  toString status ++ " Error for url"

/-- The text of the JSON decode error raised by `r.json()` on an
unparsable body. -/
def jsonDecodeErrorText : String :=
  "Expecting value"

/-- `cg_get` (main.py 60-69): a 429 response raises HTTP 429 with a fixed
message; `raise_for_status` turns any 4xx/5xx into a `RequestException`,
caught and re-raised as HTTP 502 with the underlying error text; a
transport error or an unparsable body is also caught as 502; otherwise
the parsed JSON body is returned. The result models the returned body or
the raised `HTTPException`. -/
def cg_get (resp : HttpResult) : Except HTTPException Json :=
  match resp with
  | .transportErr msg => .error ⟨502, "Upstream API error: " ++ msg⟩
  | .response status body =>
    if status = 429 then
      .error ⟨429, "CoinGecko rate limit reached. Please try again shortly."⟩
    else if 400 ≤ status ∧ status < 600 then
      .error ⟨502, "Upstream API error: " ++ statusErrorText status⟩
    else
      match body with
      | some j => .ok j
      | none => .error ⟨502, "Upstream API error: " ++ jsonDecodeErrorText⟩

/-- `etherscan_total_supply` (main.py 72-91): `Json.null` models the
Python `None` return ("unavailable"). `apiKey` is the `ETHERSCAN_API_KEY`
environment variable (`none` = unset); `resp` the outcome of the
Etherscan HTTP call. Inside the `try`, `raise_for_status` and an
unparsable body raise a caught `RequestException`; on success the
`result` field is returned when `status == "1"`, where a missing or null
`result` is Python `None`, i.e. `Json.null`. -/
def etherscan_total_supply (apiKey : Option String) (resp : HttpResult) : Json :=
  if apiKey.getD "" = "" then .null
  else
    match resp with
    | .transportErr _ => .null
    | .response status body =>
      if 400 ≤ status ∧ status < 600 then .null
      else
        match body with
        | none => .null
        | some data =>
          if (data.get "status").eqStr "1" then data.get "result" else .null

/-- `first_item` (main.py 111-115): the first element of a non-empty
list, else `None`. -/
def first_item : Json → Json
  | .arr (x :: _) => x
  | _ => .null

/-! ## Aggregation kernel (main.py 177-232) -/

/-- The `summary` dictionary built by `token_by_contract_ethereum_full`
(main.py 186-214) from the CoinGecko contract payload `cg` and the
request path parameter `address`. -/
def build_summary (address : String) (cg : Json) : Json :=
  let market_data := (cg.getD "market_data" (.obj [])).orElse (.obj [])
  let links := (cg.getD "links" (.obj [])).orElse (.obj [])
  let image := ((cg.getD "image" (.obj [])).orElse (.obj [])).get "small"
  .obj [
    ("name", cg.get "name"),
    ("symbol", cg.get "symbol"),
    ("image", image),
    ("contract_address", .str address),
    ("platform", .str "ethereum"),
    ("price", ((market_data.get "current_price").orElse (.obj [])).get "usd"),
    ("market_cap", ((market_data.get "market_cap").orElse (.obj [])).get "usd"),
    ("max_supply", market_data.get "max_supply"),
    ("circulating_supply", market_data.get "circulating_supply"),
    ("total_supply", market_data.get "total_supply"),
    ("fully_diluted_valuation",
      ((market_data.get "fully_diluted_valuation").orElse (.obj [])).get "usd"),
    ("categories", cg.getD "categories" (.arr [])),
    ("links", .obj [
      ("homepage", first_item (links.get "homepage")),
      ("twitter", links.get "twitter_screen_name"),
      ("discord", first_item (links.get "chat_url")),
      ("github", first_item (((links.get "repos_url").orElse (.obj [])).get "github")),
      ("telegram", links.get "telegram_channel_identifier")
    ]),
    ("description", ((cg.getD "description" (.obj [])).orElse (.obj [])).get "en"),
    ("community_data", cg.get "community_data"),
    ("developer_data", cg.get "developer_data")
  ]

/-- `token_by_contract_ethereum_full` (main.py 177-232).
`etherscanSupply` is the behaviour of `etherscan_total_supply` for a given
contract address (environment and HTTP outcome already fixed);
`messariProf` the behaviour of `messari_profile` for a given symbol value,
with `Json.null` standing for the Python `None` ("unavailable") return;
`cgResp` the outcome of the primary CoinGecko contract call. -/
def token_by_contract_ethereum_full
    (etherscanSupply : String → Json) (messariProf : Json → Json)
    (address : String) (cgResp : HttpResult) : Except HTTPException Json :=
  match cg_get cgResp with
  | .error e => .error e
  | .ok cg =>
    let summary := build_summary address cg
    let etherscan_supply_raw := etherscanSupply address
    let symbol := (cg.get "symbol").orElse (.str "")
    let messari := if symbol.truthy then messariProf symbol else .null
    .ok (.obj [
      ("summary", summary),
      ("sources", .obj [
        ("coingecko", cg),
        ("etherscan",
          if etherscan_supply_raw.truthy
          then .obj [("total_supply_raw", etherscan_supply_raw)]
          else .null),
        ("messari", messari)
      ])
    ])

/-- The JSON payload of a successful endpoint result (`Json.null` on an
error, used only to observe successful runs). -/
def resultJson : Except HTTPException Json → Json
  | .ok j => j
  | .error _ => .null

/-! ## Search, markets and the intent router (main.py 120-151, 235-264) -/

/-- `search_assets` (main.py 120-129) applied to the outcome of the
CoinGecko `/search` call: truncates the provider lists to the stated
caps. -/
def search_assets (resp : HttpResult) : Except HTTPException Json :=
  match cg_get resp with
  | .error e => .error e
  | .ok data => .ok (.obj [
      ("coins", (data.getD "coins" (.arr [])).takeItems 10),
      ("exchanges", (data.getD "exchanges" (.arr [])).takeItems 5),
      ("icos", (data.getD "icos" (.arr [])).takeItems 5),
      ("categories", (data.getD "categories" (.arr [])).takeItems 10)])

/-- The query parameters of the CoinGecko `/coins/markets` request built
by `markets` (main.py 132-150). -/
structure MarketsParams where
  vs_currency : String
  order : String
  per_page : Nat
  page : Nat
  sparkline : String
  price_change_percentage : String
  ids : Option String

/-- The parameter dictionary assembled by `markets` (main.py 140-149):
fixed order and percentage-change windows, `sparkline` rendered
`str(b).lower()`, and `ids` included only when truthy. -/
def markets_params (ids : Option String) (vs_currency : String)
    (per_page page : Nat) (sparkline : Bool) : MarketsParams :=
  { vs_currency := vs_currency
    order := "market_cap_desc"
    per_page := per_page
    page := page
    sparkline := if sparkline then "true" else "false"
    price_change_percentage := "1h,24h,7d"
    ids := match ids with
      | some s => if s = "" then none else some s
      | none => none }

/-- `markets` (main.py 132-151): issues the `/coins/markets` call through
`cg_get`; `call` is the network oracle from request parameters to the
HTTP outcome. -/
def markets (call : MarketsParams → HttpResult) (ids : Option String)
    (vs_currency : String) (per_page page : Nat) (sparkline : Bool) :
    Except HTTPException Json :=
  cg_get (call (markets_params ids vs_currency per_page page sparkline))

/-- The network and environment behind one request: the outcome of each
outbound call as a function of its request data. -/
structure Upstream where
  cgContract : String → HttpResult
  cgSearch : String → HttpResult
  cgMarkets : MarketsParams → HttpResult
  etherscanSupply : String → Json
  messariProf : Json → Json

/-- The keyword list of `ask_bot` (main.py 250), in source order. -/
def keywords : List (List Char) :=
  ["price of ".data, "price ".data, "chart of ".data, "chart ".data,
   "show ".data, "info ".data]

/-- The residual coin name of `ask_bot` (main.py 250-255): the first
keyword occurring anywhere in `q` (Python `kw in q` is detected by the
split producing more than one chunk, `q.split(kw)[-1]` is the last
chunk), stripped; `q` itself if no keyword occurs. -/
def residual_name (q : List Char) : List Char :=
  match keywords.find? (fun kw => (pySplit q kw).length != 1) with
  | some kw => pyStrip ((pySplit q kw).getLastD q)
  | none => q

/-- The normalisation `payload.query.strip().lower()` (main.py 243). -/
def normalize_query (query : String) : List Char :=
  pyLower (pyStrip query.data)

/-- Strict Python subscript `c["id"]` as consumed by the comma `join`
(main.py 262): `some sid` when the coin is a mapping holding a string
under "id"; `none` models the raise — KeyError for a mapping without the
key, TypeError for a non-mapping subscript or for a non-string id
reaching the `join`. -/
def subscript_id (c : Json) : Option String :=
  match c with
  | .obj kvs =>
    match kvs.lookup "id" with
    | some (.str sid) => some sid
    | _ => none
  | _ => none

/-- The list comprehension over `c["id"]` (main.py 262): the ids of the
coins, or `none` as soon as one extraction raises. -/
def ids_of : List Json → Option (List String)
  | [] => some []
  | c :: cs =>
    match subscript_id c, ids_of cs with
    | some sid, some rest => some (sid :: rest)
    | _, _ => none

/-- `ask_bot` (main.py 235-264): contract-address detection, keyword
stripping, then search and markets through the same endpoint functions
the HTTP surface exposes. A raising id extraction (`ids_of` = `none`) is
an exception no handler catches; the hosting framework renders it as a
bare HTTP 500 Internal Server Error response, modelled as the 500
outcome. -/
def ask_bot (U : Upstream) (query : String) : Except HTTPException Json :=
  let q := normalize_query query
  if isPre "0x".data q && (q.length = 42 || q.length = 66) then
    match token_by_contract_ethereum_full U.etherscanSupply U.messariProf
        (String.mk q) (U.cgContract (String.mk q)) with
    | .error e => .error e
    | .ok data => .ok (.obj [("type", .str "token_full"), ("data", data)])
  else
    let name := residual_name q
    match search_assets (U.cgSearch (String.mk name)) with
    | .error e => .error e
    | .ok s =>
      let coins := s.getD "coins" (.arr [])
      if !coins.truthy then .error ⟨404, "No matching assets found"⟩
      else
        match ids_of (coins.items.take 5) with
        | none => .error ⟨500, "Internal Server Error"⟩
        | some ids =>
          let top_ids := String.intercalate "," ids
          match markets U.cgMarkets (some top_ids) "usd" 5 1 true with
          | .error e => .error e
          | .ok m => .ok (.obj [("type", .str "markets"),
              ("query", .str (String.mk name)), ("data", m)])

example : pySplit "price of price of bitcoin".data "price of ".data
    = [[], [], "bitcoin".data] := by decide
example : residual_name "price of price of bitcoin".data = "bitcoin".data := by decide
example : normalize_query "  Price OF Bitcoin " = "price of bitcoin".data := by decide

/-! ## Derived notions used by the theorems -/

/-- The `links` mapping pulled from the CoinGecko payload (main.py 188). -/
def links_of (cg : Json) : Json :=
  (cg.getD "links" (Json.obj [])).orElse (Json.obj [])

/-- A named entry of the `sources` part of a successful aggregation
result. -/
def source_field (r : Except HTTPException Json) (k : String) : Json :=
  ((resultJson r).get "sources").get k

/-- The wrapping of a contract-lookup aggregate by `ask_bot`
(main.py 246-247): errors propagate, a success is tagged `token_full`. -/
def wrap_token_full (r : Except HTTPException Json) : Except HTTPException Json :=
  match r with
  | .error e => .error e
  | .ok d => .ok (Json.obj [("type", Json.str "token_full"), ("data", d)])

/-- The MARKET_QUERY branch of `ask_bot` (main.py 249-264), on the
normalized query. -/
def market_flow (U : Upstream) (q : List Char) : Except HTTPException Json :=
  let name := residual_name q
  match search_assets (U.cgSearch (String.mk name)) with
  | .error e => .error e
  | .ok s =>
    let coins := s.getD "coins" (.arr [])
    if !coins.truthy then .error ⟨404, "No matching assets found"⟩
    else
      match ids_of (coins.items.take 5) with
      | none => .error ⟨500, "Internal Server Error"⟩
      | some ids =>
        let top_ids := String.intercalate "," ids
        match markets U.cgMarkets (some top_ids) "usd" 5 1 true with
        | .error e => .error e
        | .ok m => .ok (Json.obj [("type", Json.str "markets"),
            ("query", Json.str (String.mk name)), ("data", m)])

/-- The coin list served by the test environment search call. -/
def testCoins : List Json :=
  [Json.obj [("id", Json.str "bitcoin")], Json.obj [("id", Json.str "bitcoin-cash")]]

/-- A fixed test environment for the concrete witnesses. -/
def testUpstream : Upstream :=
  { cgContract := fun _ => .response 200 (some (Json.obj
      [("name", Json.str "Tether"), ("symbol", Json.str "usdt")]))
    cgSearch := fun _ => .response 200 (some (Json.obj
      [("coins", Json.arr testCoins)]))
    cgMarkets := fun _ => .response 200 (some (Json.arr
      [Json.obj [("id", Json.str "bitcoin")]]))
    etherscanSupply := fun _ => Json.null
    messariProf := fun _ => Json.obj [("data", Json.obj [])] }

/-! ## Claims -/

/-- Claim C8: `first_item` is total and never raises: the first element
for a non-empty list, null for a missing value, a non-list, or an empty
list; the listed concrete cases hold, and the summary applies exactly
this helper at each list-valued link field (homepage, discord/chat,
github repo list). -/
theorem first_item_spec :
    first_item (Json.arr []) = Json.null
    ∧ first_item Json.null = Json.null
    ∧ first_item (Json.arr [Json.str "a", Json.str "b"]) = Json.str "a"
    ∧ (∀ x xs, first_item (Json.arr (x :: xs)) = x)
    ∧ (∀ b, first_item (Json.bool b) = Json.null)
    ∧ (∀ n, first_item (Json.num n) = Json.null)
    ∧ (∀ s, first_item (Json.str s) = Json.null)
    ∧ (∀ kvs, first_item (Json.obj kvs) = Json.null)
    ∧ (∀ address cg,
        ((build_summary address cg).get "links").get "homepage"
            = first_item ((links_of cg).get "homepage")
        ∧ ((build_summary address cg).get "links").get "discord"
            = first_item ((links_of cg).get "chat_url")
        ∧ ((build_summary address cg).get "links").get "github"
            = first_item ((((links_of cg).get "repos_url").orElse
                (Json.obj [])).get "github")) :=
  ⟨rfl, rfl, rfl, fun _ _ => rfl, fun _ => rfl, fun _ => rfl, fun _ => rfl,
   fun _ => rfl, fun _ _ => ⟨rfl, rfl, rfl⟩⟩

/-- Claim C5 counterexample: a 300 response with a JSON body is a
non-2xx status, yet `raise_for_status` only raises for 4xx/5xx, so
`cg_get` returns the body as a success instead of surfacing HTTP 502. -/
theorem cg_get_non2xx_success_counterexample :
    cg_get (HttpResult.response 300 (some (Json.obj []))) = Except.ok (Json.obj []) := rfl

/-- Claim C5 (amended): upstream 429 is surfaced as HTTP 429 with the
fixed message; any 4xx/5xx other than 429, any transport or timeout
error, and an unparsable body are surfaced as HTTP 502 with the
underlying error text embedded; a response with any other status code
(2xx in practice) returns the parsed JSON body; every raised error is a
429 or a 502. -/
theorem cg_get_taxonomy (r : HttpResult) :
    (∀ b, r = .response 429 b →
      cg_get r = .error ⟨429, "CoinGecko rate limit reached. Please try again shortly."⟩)
    ∧ (∀ s b, r = .response s b → s ≠ 429 → 400 ≤ s → s < 600 →
      cg_get r = .error ⟨502, "Upstream API error: " ++ statusErrorText s⟩)
    ∧ (∀ m, r = .transportErr m →
      cg_get r = .error ⟨502, "Upstream API error: " ++ m⟩)
    ∧ (∀ s, r = .response s none → s ≠ 429 → ¬(400 ≤ s ∧ s < 600) →
      cg_get r = .error ⟨502, "Upstream API error: " ++ jsonDecodeErrorText⟩)
    ∧ (∀ s j, r = .response s (some j) → s ≠ 429 → ¬(400 ≤ s ∧ s < 600) →
      cg_get r = .ok j)
    ∧ (∀ e, cg_get r = .error e → e.status_code = 429 ∨ e.status_code = 502) := by
  refine ⟨?_, ?_, ?_, ?_, ?_, ?_⟩
  · rintro b rfl; simp [cg_get]
  · rintro s b rfl h1 h2 h3; simp [cg_get, h1, h2, h3]
  · rintro m rfl; rfl
  · rintro s rfl h1 h2; simp [cg_get, h1, h2]
  · rintro s j rfl h1 h2; simp [cg_get, h1, h2]
  · intro e he
    cases r with
    | transportErr m => simp [cg_get] at he; simp [← he]
    | response s b =>
      by_cases h1 : s = 429
      · subst h1; simp [cg_get] at he; simp [← he]
      · by_cases h2 : 400 ≤ s ∧ s < 600
        · simp [cg_get, h1, h2] at he; simp [← he]
        · cases b with
          | some j => simp [cg_get, h1, h2] at he
          | none => simp [cg_get, h1, h2] at he; simp [← he]

/-- Witness for the amended claim C5 at a concrete 429 response. -/
theorem cg_get_taxonomy_witness :
    cg_get (HttpResult.response 429 none)
      = Except.error ⟨429, "CoinGecko rate limit reached. Please try again shortly."⟩ :=
  (cg_get_taxonomy (HttpResult.response 429 none)).1 none rfl

/-- Claim C6 counterexample: with the key configured, a clean 200
response whose status field is "1" but which carries no result value
still yields the unavailable marker, though none of the three stated
conditions holds. -/
theorem etherscan_missing_result_counterexample :
    etherscan_total_supply (some "KEY")
      (HttpResult.response 200 (some (Json.obj [("status", Json.str "1")])))
      = Json.null := rfl

/-- Claim C6 (amended): the fetch is a total function (never raises) into
the raw result value or the unavailable marker; it is unavailable exactly
when the key is unconfigured, a transport error or HTTP error status or
unparsable body occurs, the status field differs from "1", or the
success response carries no (or a null) result value; in the remaining
case it returns the raw result field. -/
theorem etherscan_total_supply_characterization (apiKey : Option String) (resp : HttpResult) :
    (etherscan_total_supply apiKey resp ≠ Json.null ↔
      (apiKey.getD "" ≠ "" ∧ ∃ s d, resp = .response s (some d)
        ∧ ¬(400 ≤ s ∧ s < 600) ∧ (d.get "status").eqStr "1" = true
        ∧ d.get "result" ≠ Json.null))
    ∧ (∀ s d, resp = .response s (some d) →
        etherscan_total_supply apiKey resp ≠ Json.null →
        etherscan_total_supply apiKey resp = d.get "result") := by
  constructor
  · by_cases hk : apiKey.getD "" = ""
    · simp [etherscan_total_supply, hk]
    · cases resp with
      | transportErr m => simp [etherscan_total_supply, hk]
      | response s b =>
        by_cases hs : 400 ≤ s ∧ s < 600
        · simp [etherscan_total_supply, hk, hs]
          rintro x d rfl rfl h
          exact absurd (h hs.1) (by omega)
        · cases b with
          | none => simp [etherscan_total_supply, hk, hs]
          | some d =>
            by_cases h1 : (d.get "status").eqStr "1" = true
            · simp [etherscan_total_supply, hk, hs, h1]
              constructor
              · intro h
                exact ⟨s, d, ⟨rfl, rfl⟩, by omega, h1, h⟩
              · rintro ⟨s', d', ⟨rfl, rfl⟩, -, -, h⟩
                exact h
            · simp [etherscan_total_supply, hk, hs, h1]
  · rintro s d rfl hne
    by_cases hk : apiKey.getD "" = ""
    · simp [etherscan_total_supply, hk] at hne
    · by_cases hs : 400 ≤ s ∧ s < 600
      · simp [etherscan_total_supply, hk, hs] at hne
      · by_cases h1 : (d.get "status").eqStr "1" = true
        · simp [etherscan_total_supply, hk, hs, h1]
        · simp [etherscan_total_supply, hk, hs, h1] at hne

/-- Witness for the amended claim C6 at a concrete successful fetch. -/
theorem etherscan_total_supply_characterization_witness :
    etherscan_total_supply (some "KEY") (HttpResult.response 200 (some
        (Json.obj [("status", Json.str "1"), ("result", Json.str "42")])))
      = (Json.obj [("status", Json.str "1"), ("result", Json.str "42")]).get "result" :=
  (etherscan_total_supply_characterization (some "KEY") _).2 200 _ rfl
    (fun h => Json.noConfusion (show Json.str "42" = Json.null from h))

/-- Modelled from the claim: the residual name is everything after the
LAST occurrence of the first keyword found in the query, with no
trimming. None of the six keywords overlaps itself, so the last chunk of
the non-overlapping split is exactly the suffix after the last
occurrence. -/
def residual_name_claimed (q : List Char) : List Char :=
  match keywords.find? (fun kw => (pySplit q kw).length != 1) with
  | some kw => (pySplit q kw).getLastD q
  | none => q

/-- Claim C2 counterexample: on the normalized query with a doubled
space, the code strips the residual, while everything after the last
occurrence of "price of " keeps its leading space. -/
theorem residual_name_strip_counterexample :
    residual_name "price of  bitcoin".data = "bitcoin".data
    ∧ residual_name_claimed "price of  bitcoin".data = " bitcoin".data
    ∧ residual_name "price of  bitcoin".data
        ≠ residual_name_claimed "price of  bitcoin".data := by
  refine ⟨by decide, by decide, by decide⟩

/-- Claim C2 (amended): on a trimmed query the residual name is
everything after the last occurrence of the first keyword found (in the
fixed order "price of ", "price ", "chart of ", "chart ", "show ",
"info ", stopping at the first that occurs), additionally stripped of
surrounding whitespace; the full query if no keyword occurs; in
particular "price of price of bitcoin" yields "bitcoin". -/
theorem residual_name_amended (q : List Char) (hq : pyStrip q = q) :
    residual_name q = pyStrip (residual_name_claimed q)
    ∧ residual_name "price of price of bitcoin".data = "bitcoin".data := by
  refine ⟨?_, by decide⟩
  unfold residual_name residual_name_claimed
  cases h : keywords.find? (fun kw => (pySplit q kw).length != 1) with
  | none => simpa using hq.symm
  | some kw => rfl

/-- Witness for the amended claim C2 at the concrete query of the
claim. -/
theorem residual_name_amended_witness :
    pyStrip "price of price of bitcoin".data = "price of price of bitcoin".data
    ∧ residual_name "price of price of bitcoin".data
        = pyStrip (residual_name_claimed "price of price of bitcoin".data) :=
  ⟨by decide, (residual_name_amended "price of price of bitcoin".data (by decide)).1⟩

/-- Claim C3: a normalized query starting with "0x" of total length
exactly 42 or 66 is classified CONTRACT_LOOKUP regardless of the rest of
its content: the full normalized string is the address handed to the
token aggregation flow and a success is wrapped as type "token_full";
every other normalized query takes the MARKET_QUERY path. -/
theorem ask_bot_contract_detection (U : Upstream) (query : String) :
    ((isPre "0x".data (normalize_query query)
        && ((normalize_query query).length = 42 || (normalize_query query).length = 66)) = true →
      ask_bot U query = wrap_token_full
        (token_by_contract_ethereum_full U.etherscanSupply U.messariProf
          (String.mk (normalize_query query))
          (U.cgContract (String.mk (normalize_query query)))))
    ∧ ((isPre "0x".data (normalize_query query)
        && ((normalize_query query).length = 42 || (normalize_query query).length = 66)) = false →
      ask_bot U query = market_flow U (normalize_query query)) := by
  constructor
  · intro h
    simp only [ask_bot, h, if_true, wrap_token_full]
  · intro h
    simp only [ask_bot, h, Bool.false_eq_true, if_false, market_flow, markets]

/-- Witness for claim C3 at a 42-character address query against the
test environment. -/
theorem ask_bot_contract_detection_witness :
    ((isPre "0x".data (normalize_query "0xDAC17F958D2EE523A2206206994597C13D831EC7")
        && ((normalize_query "0xDAC17F958D2EE523A2206206994597C13D831EC7").length = 42
          || (normalize_query "0xDAC17F958D2EE523A2206206994597C13D831EC7").length = 66)) = true)
    ∧ ask_bot testUpstream "0xDAC17F958D2EE523A2206206994597C13D831EC7"
        = wrap_token_full
          (token_by_contract_ethereum_full testUpstream.etherscanSupply testUpstream.messariProf
            (String.mk (normalize_query "0xDAC17F958D2EE523A2206206994597C13D831EC7"))
            (testUpstream.cgContract
              (String.mk (normalize_query "0xDAC17F958D2EE523A2206206994597C13D831EC7")))) :=
  ⟨by decide,
   (ask_bot_contract_detection testUpstream "0xDAC17F958D2EE523A2206206994597C13D831EC7").1
     (by decide)⟩

/-- Claim C4: in the MARKET_QUERY flow a provider search runs on the
residual name; zero coin matches fail with HTTP 404 NotFound; otherwise,
for well-formed search results whose top five coins each carry a string
id (`ids_of` succeeds — on an id-less or non-string-id coin the program
instead raises, surfacing as HTTP 500), those ids in the search endpoint
native order, joined by commas, are passed to the markets call with
vs_currency "usd", per_page 5, page 1, sparkline true, and a success is
returned as type "markets" with the residual name as query and the
market array as data. -/
theorem market_flow_spec (U : Upstream) (q : List Char) (data : Json)
    (cs : List Json) (ids : List String)
    (h1 : U.cgSearch (String.mk (residual_name q)) = .response 200 (some data))
    (h2 : data.getD "coins" (Json.arr []) = Json.arr cs)
    (h3 : ids_of (cs.take 5) = some ids) :
    (cs = [] → market_flow U q = .error ⟨404, "No matching assets found"⟩)
    ∧ (cs ≠ [] →
        market_flow U q =
          match markets U.cgMarkets
              (some (String.intercalate "," ids)) "usd" 5 1 true with
          | .error e => .error e
          | .ok m => .ok (Json.obj [("type", Json.str "markets"),
              ("query", Json.str (String.mk (residual_name q))), ("data", m)])) := by
  have hs : search_assets (U.cgSearch (String.mk (residual_name q)))
      = .ok (Json.obj [
        ("coins", Json.arr (cs.take 10)),
        ("exchanges", (data.getD "exchanges" (.arr [])).takeItems 5),
        ("icos", (data.getD "icos" (.arr [])).takeItems 5),
        ("categories", (data.getD "categories" (.arr [])).takeItems 10)]) := by
    rw [h1]
    simp [search_assets, cg_get, h2, Json.takeItems]
  constructor
  · rintro rfl
    simp only [market_flow]
    rw [hs]
    rfl
  · intro hne
    obtain ⟨c, cs', rfl⟩ := List.exists_cons_of_ne_nil hne
    have htk : List.take 5 (List.take 10 (c :: cs')) = List.take 5 (c :: cs') := by
      rw [List.take_take]
      norm_num
    have main : market_flow U q =
        match ids_of (List.take 5 (List.take 10 (c :: cs'))) with
        | none => .error ⟨500, "Internal Server Error"⟩
        | some l =>
          match markets U.cgMarkets
              (some (String.intercalate "," l)) "usd" 5 1 true with
          | .error e => .error e
          | .ok m => .ok (Json.obj [("type", Json.str "markets"),
              ("query", Json.str (String.mk (residual_name q))), ("data", m)]) := by
      simp only [market_flow]
      rw [hs]
      rfl
    rw [htk, h3] at main
    exact main

/-- Witness for claim C4: the MARKET_QUERY flow against the test
environment on the query name "bitcoin" (residual of "price of
bitcoin"), whose two coins both carry string ids. -/
theorem market_flow_spec_witness :
    testUpstream.cgSearch (String.mk (residual_name "price of bitcoin".data))
        = HttpResult.response 200 (some (Json.obj [("coins", Json.arr testCoins)]))
    ∧ (Json.obj [("coins", Json.arr testCoins)]).getD "coins" (Json.arr [])
        = Json.arr testCoins
    ∧ ids_of (testCoins.take 5) = some ["bitcoin", "bitcoin-cash"]
    ∧ market_flow testUpstream "price of bitcoin".data =
        match markets testUpstream.cgMarkets
            (some (String.intercalate "," ["bitcoin", "bitcoin-cash"])) "usd" 5 1 true with
        | .error e => .error e
        | .ok m => .ok (Json.obj [("type", Json.str "markets"),
            ("query", Json.str (String.mk (residual_name "price of bitcoin".data))),
            ("data", m)]) :=
  ⟨rfl, rfl, rfl,
   (market_flow_spec testUpstream "price of bitcoin".data
      (Json.obj [("coins", Json.arr testCoins)]) testCoins
      ["bitcoin", "bitcoin-cash"] rfl rfl rfl).2
     (List.cons_ne_nil _ _)⟩

/-- Claim C1: when the primary CoinGecko contract lookup succeeds, an
unavailable Etherscan supply together with a Messari profile yields a
successful aggregate whose sources.etherscan is null, sources.messari is
that profile, and whose summary is built from the CoinGecko payload
alone; the enrichment outcomes never turn the request into an error. -/
theorem token_full_enrichment_degrade
    (eS : String → Json) (mP : Json → Json) (address : String)
    (cgResp : HttpResult) (cg p : Json)
    (hcg : cg_get cgResp = .ok cg)
    (hes : eS address = Json.null)
    (hsym : ((cg.get "symbol").orElse (Json.str "")).truthy = true)
    (hmp : mP ((cg.get "symbol").orElse (Json.str "")) = p)
    (hp : p ≠ Json.null) :
    token_by_contract_ethereum_full eS mP address cgResp =
      .ok (Json.obj [
        ("summary", build_summary address cg),
        ("sources", Json.obj [
          ("coingecko", cg),
          ("etherscan", Json.null),
          ("messari", p)])]) := by
  have _ := hp
  simp only [token_by_contract_ethereum_full]
  rw [hcg]
  simp [hes, hsym, hmp]
  rfl

/-- Witness for claim C1 against the test environment. -/
theorem token_full_enrichment_degrade_witness :
    cg_get (testUpstream.cgContract "0xDAC")
        = .ok (Json.obj [("name", Json.str "Tether"), ("symbol", Json.str "usdt")])
    ∧ testUpstream.etherscanSupply "0xDAC" = Json.null
    ∧ (((Json.obj [("name", Json.str "Tether"), ("symbol", Json.str "usdt")]).get
        "symbol").orElse (Json.str "")).truthy = true
    ∧ token_by_contract_ethereum_full testUpstream.etherscanSupply testUpstream.messariProf
        "0xDAC" (testUpstream.cgContract "0xDAC") =
      .ok (Json.obj [
        ("summary", build_summary "0xDAC"
          (Json.obj [("name", Json.str "Tether"), ("symbol", Json.str "usdt")])),
        ("sources", Json.obj [
          ("coingecko", Json.obj [("name", Json.str "Tether"), ("symbol", Json.str "usdt")]),
          ("etherscan", Json.null),
          ("messari", Json.obj [("data", Json.obj [])])])]) :=
  ⟨rfl, rfl, rfl,
   token_full_enrichment_degrade testUpstream.etherscanSupply testUpstream.messariProf
     "0xDAC" (testUpstream.cgContract "0xDAC")
     (Json.obj [("name", Json.str "Tether"), ("symbol", Json.str "usdt")])
     (Json.obj [("data", Json.obj [])])
     rfl rfl rfl rfl (fun h => Json.noConfusion h)⟩

/-- Claim C7 counterexample: with an absent symbol in the primary
payload the Etherscan supply is still fetched (the call is not gated on
the symbol) and its value lands in the sources, so the etherscan entry
is not null. -/
theorem token_full_etherscan_ungated_counterexample :
    source_field (token_by_contract_ethereum_full (fun _ => Json.str "123")
        (fun _ => Json.null) "0xdead"
        (HttpResult.response 200 (some (Json.obj [("name", Json.str "X")])))) "etherscan"
      = Json.obj [("total_supply_raw", Json.str "123")] := rfl

/-- Claim C7 (amended): only the Messari enrichment is gated on the
asset symbol: when the symbol is absent or empty the Messari fetch is
not consulted (the result is independent of it) and the messari entry is
null, while the Etherscan supply call is issued unconditionally with the
contract address and its entry is populated whenever its value is
truthy. -/
theorem token_full_enrichment_gating
    (eS : String → Json) (mP mP' : Json → Json) (address : String)
    (cgResp : HttpResult) (cg : Json)
    (hcg : cg_get cgResp = .ok cg)
    (hsym : ((cg.get "symbol").orElse (Json.str "")).truthy = false) :
    token_by_contract_ethereum_full eS mP address cgResp
        = token_by_contract_ethereum_full eS mP' address cgResp
    ∧ source_field (token_by_contract_ethereum_full eS mP address cgResp) "messari"
        = Json.null
    ∧ source_field (token_by_contract_ethereum_full eS mP address cgResp) "etherscan"
        = (if (eS address).truthy
           then Json.obj [("total_supply_raw", eS address)] else Json.null) := by
  have key : ∀ mQ : Json → Json, token_by_contract_ethereum_full eS mQ address cgResp
      = .ok (Json.obj [
          ("summary", build_summary address cg),
          ("sources", Json.obj [
            ("coingecko", cg),
            ("etherscan", if (eS address).truthy
              then Json.obj [("total_supply_raw", eS address)] else Json.null),
            ("messari", Json.null)])]) := by
    intro mQ
    simp only [token_by_contract_ethereum_full]
    rw [hcg]
    simp [hsym]
  refine ⟨by rw [key mP, key mP'], ?_, ?_⟩
  · simp only [source_field, key mP, resultJson]
    rfl
  · simp only [source_field, key mP, resultJson]
    rfl

/-- Witness for the amended claim C7 at a symbol-free payload. -/
theorem token_full_enrichment_gating_witness :
    cg_get (HttpResult.response 200 (some (Json.obj [("name", Json.str "X")])))
        = .ok (Json.obj [("name", Json.str "X")])
    ∧ (((Json.obj [("name", Json.str "X")]).get "symbol").orElse (Json.str "")).truthy = false
    ∧ source_field (token_by_contract_ethereum_full (fun _ => Json.str "5")
        (fun _ => Json.obj [("data", Json.obj [])]) "0xdead"
        (HttpResult.response 200 (some (Json.obj [("name", Json.str "X")])))) "messari"
      = Json.null :=
  ⟨rfl, rfl,
   (token_full_enrichment_gating (fun _ => Json.str "5")
      (fun _ => Json.obj [("data", Json.obj [])]) (fun _ => Json.null) "0xdead"
      (HttpResult.response 200 (some (Json.obj [("name", Json.str "X")])))
      (Json.obj [("name", Json.str "X")]) rfl rfl).2.1⟩

/-- The names of the summary fields (main.py 191-214). -/
def summary_field_names : List String :=
  ["name", "symbol", "image", "contract_address", "platform", "price",
   "market_cap", "max_supply", "circulating_supply", "total_supply",
   "fully_diluted_valuation", "categories", "links", "description",
   "community_data", "developer_data"]

/-- Modelled from the claim: every summary field, the constant ones
included, is null under some primary payload and address. -/
def every_summary_field_nullable : Prop :=
  ∀ f ∈ summary_field_names, ∃ address cg, (build_summary address cg).get f = Json.null

/-- Claim C9 counterexample: the platform field is the constant
"ethereum" for every primary payload and address, so not every summary
field can be null. -/
theorem summary_platform_counterexample : ¬ every_summary_field_nullable := by
  intro h
  obtain ⟨address, cg, hnull⟩ := h "platform" (by decide)
  have he : (build_summary address cg).get "platform" = Json.str "ethereum" := rfl
  rw [he] at hnull
  exact Json.noConfusion hnull

/-- Claim C9 (amended): every summary field is optional except the
always-populated ones: each of the thirteen data fields (and each of the
five link entries) is null under some primary payload, while
contract_address is always the input address, platform is always
"ethereum", and links is always an object. -/
theorem summary_optional_fields :
    ((build_summary "0xa" (Json.obj [])).get "name" = Json.null)
    ∧ ((build_summary "0xa" (Json.obj [])).get "symbol" = Json.null)
    ∧ ((build_summary "0xa" (Json.obj [])).get "image" = Json.null)
    ∧ ((build_summary "0xa" (Json.obj [])).get "price" = Json.null)
    ∧ ((build_summary "0xa" (Json.obj [])).get "market_cap" = Json.null)
    ∧ ((build_summary "0xa" (Json.obj [])).get "max_supply" = Json.null)
    ∧ ((build_summary "0xa" (Json.obj [])).get "circulating_supply" = Json.null)
    ∧ ((build_summary "0xa" (Json.obj [])).get "total_supply" = Json.null)
    ∧ ((build_summary "0xa" (Json.obj [])).get "fully_diluted_valuation" = Json.null)
    ∧ ((build_summary "0xa" (Json.obj [("categories", Json.null)])).get "categories" = Json.null)
    ∧ ((build_summary "0xa" (Json.obj [])).get "description" = Json.null)
    ∧ ((build_summary "0xa" (Json.obj [])).get "community_data" = Json.null)
    ∧ ((build_summary "0xa" (Json.obj [])).get "developer_data" = Json.null)
    ∧ (((build_summary "0xa" (Json.obj [])).get "links").get "homepage" = Json.null)
    ∧ (((build_summary "0xa" (Json.obj [])).get "links").get "twitter" = Json.null)
    ∧ (((build_summary "0xa" (Json.obj [])).get "links").get "discord" = Json.null)
    ∧ (((build_summary "0xa" (Json.obj [])).get "links").get "github" = Json.null)
    ∧ (((build_summary "0xa" (Json.obj [])).get "links").get "telegram" = Json.null)
    ∧ (∀ address cg,
        (build_summary address cg).get "platform" = Json.str "ethereum"
        ∧ (build_summary address cg).get "contract_address" = Json.str address
        ∧ (build_summary address cg).get "links" = Json.obj [
            ("homepage", first_item ((links_of cg).get "homepage")),
            ("twitter", (links_of cg).get "twitter_screen_name"),
            ("discord", first_item ((links_of cg).get "chat_url")),
            ("github", first_item ((((links_of cg).get "repos_url").orElse
              (Json.obj [])).get "github")),
            ("telegram", (links_of cg).get "telegram_channel_identifier")]) :=
  ⟨rfl, rfl, rfl, rfl, rfl, rfl, rfl, rfl, rfl, rfl, rfl, rfl, rfl, rfl, rfl,
   rfl, rfl, rfl, fun _ _ => ⟨rfl, rfl, rfl⟩⟩

/-- Claim C10 counterexample: an Etherscan response whose result field
is a JSON number flows through the real fetch into the etherscan source
entry, whose total_supply_raw value is then truthy but not a string. -/
theorem etherscan_source_nonstring_counterexample :
    source_field (token_by_contract_ethereum_full
        (fun _ => etherscan_total_supply (some "KEY") (HttpResult.response 200 (some
          (Json.obj [("status", Json.str "1"), ("result", Json.num 123)]))))
        (fun _ => Json.null) "0xdead"
        (HttpResult.response 200 (some (Json.obj [])))) "etherscan"
      = Json.obj [("total_supply_raw", Json.num 123)]
    ∧ (Json.num 123).isStrVal = false := ⟨rfl, rfl⟩

/-- Claim C10 (amended): in every successful aggregation the etherscan
source entry is either null or the object with single key
total_supply_raw holding the truthy raw fetch value (in practice a
non-empty numeric string, though the code does not enforce stringness);
any falsy fetch value, the empty string included, collapses the entry to
null exactly as if the supply were unavailable, so callers cannot
distinguish an empty-string supply from a missing one. -/
theorem etherscan_source_truthy_or_null
    (eS : String → Json) (mP : Json → Json) (address : String)
    (cgResp : HttpResult) (cg : Json)
    (hcg : cg_get cgResp = .ok cg) :
    (source_field (token_by_contract_ethereum_full eS mP address cgResp) "etherscan"
        = Json.null
      ∨ (source_field (token_by_contract_ethereum_full eS mP address cgResp) "etherscan"
           = Json.obj [("total_supply_raw", eS address)]
         ∧ (eS address).truthy = true))
    ∧ ((eS address).truthy = false →
        source_field (token_by_contract_ethereum_full eS mP address cgResp) "etherscan"
          = Json.null)
    ∧ (eS address = Json.str "" →
        source_field (token_by_contract_ethereum_full eS mP address cgResp) "etherscan"
          = Json.null) := by
  have hsf : source_field (token_by_contract_ethereum_full eS mP address cgResp) "etherscan"
      = (if (eS address).truthy
         then Json.obj [("total_supply_raw", eS address)] else Json.null) := by
    simp only [source_field, token_by_contract_ethereum_full, resultJson]
    rw [hcg]
    rfl
  refine ⟨?_, ?_, ?_⟩
  · rw [hsf]
    by_cases h : (eS address).truthy = true
    · right
      simp [h]
    · left
      simp [Bool.not_eq_true] at h
      simp [h]
  · intro h
    rw [hsf]
    simp [h]
  · intro h
    rw [hsf, h]
    rfl

/-- Witness for the amended claim C10: an empty-string supply collapses
the etherscan source entry to null. -/
theorem etherscan_source_truthy_or_null_witness :
    cg_get (HttpResult.response 200 (some (Json.obj []))) = .ok (Json.obj [])
    ∧ source_field (token_by_contract_ethereum_full (fun _ => Json.str "")
        (fun _ => Json.null) "0xdead"
        (HttpResult.response 200 (some (Json.obj [])))) "etherscan" = Json.null :=
  ⟨rfl,
   (etherscan_source_truthy_or_null (fun _ => Json.str "") (fun _ => Json.null) "0xdead"
      (HttpResult.response 200 (some (Json.obj []))) (Json.obj []) rfl).2.2 rfl⟩
